import Mathlib

/-!
Shallow embedding of the tsunami decision pipeline of the
`disaster-prediction` repository:

* `src/src/filtering/india_impact_filter.py` (`IndiaImpactFilter`)
* `src/src/filtering/risk_assessor.py` (`RiskAssessor`)
* `src/src/inference_engine.py` (`RealTimeInferenceEngine` scheduler)

Python floats are modelled as rationals (`ℚ`).  The haversine distance
(`_haversine_distance`) is transcendental (sin/cos/arcsin), so every
definition that consumes it is parametrised by an abstract distance
function `Dist`; all verified claims hold for an arbitrary such function
(with an explicit non-negativity hypothesis where the source relies on
the haversine being non-negative).
-/

namespace DisasterPrediction

/-- Abstract great-circle distance function: `dist lat1 lon1 lat2 lon2`
stands for `_haversine_distance`. -/
abbrev Dist : Type := ℚ → ℚ → ℚ → ℚ → ℚ

/-- Earthquake input of `assess_india_risk`
(`{latitude, longitude, magnitude, depth}`; the `time` field is not read
by the filter). -/
structure EarthquakeData where
  latitude : ℚ
  longitude : ℚ
  magnitude : ℚ
  depth : ℚ
deriving DecidableEq

/-- Model prediction input `{risk_probability, confidence}` (the
`risk_class` vector is not read by the filter). -/
structure ModelPrediction where
  riskProbability : ℚ
  confidence : ℚ
deriving DecidableEq

/-- One configured coastal region bound from `config['india_region']['coastline']`. -/
structure CoastBounds where
  minLat : ℚ
  maxLat : ℚ
  minLon : ℚ
  maxLon : ℚ
deriving DecidableEq

/-- The configuration fields read by the filtering pipeline:
`india_region.critical_radius_km`, the `india_region.coastline` table
(an ordered association list, mirroring the Python dict's insertion
order), and `model.thresholds.{high_risk, medium_risk, low_risk}`. -/
structure Config where
  criticalRadiusKm : ℚ
  coastline : List (String × CoastBounds)
  highRisk : ℚ
  mediumRisk : ℚ
  lowRisk : ℚ

/-- One critical earthquake zone from `IndiaImpactFilter.critical_zones`. -/
structure Zone where
  name : String
  latMin : ℚ
  latMax : ℚ
  lonMin : ℚ
  lonMax : ℚ
  threatLevel : String
deriving DecidableEq

def andamanZone : Zone := ⟨"andaman_subduction", 0, 15, 90, 100, "critical"⟩

def makranZone : Zone := ⟨"makran_subduction", 20, 27, 60, 68, "high"⟩

def sumatraZone : Zone := ⟨"sumatra_subduction", -10, 5, 90, 105, "medium"⟩

def arabianSeaZone : Zone := ⟨"arabian_sea", 10, 25, 60, 75, "medium"⟩

/-- `self.critical_zones`, in the Python dict's insertion order (Python
dicts iterate in insertion order, which is the priority order the spec
documents). -/
def criticalZones : List Zone :=
  [andamanZone, makranZone, sumatraZone, arabianSeaZone]

/-- The `threat_weights` table inside `_evaluate_location_threat`.  In
the source an unknown key would raise `KeyError`; every zone in the
fixed table carries one of the three known levels, so the default
branch is unreachable. -/
def threatWeightOf (level : String) : ℚ :=
  if level = "critical" then 1
  else if level = "high" then 0.8
  else if level = "medium" then 0.5
  else 0

/-- Result of `_evaluate_location_threat`. -/
structure ZoneResult where
  zone : String
  threatLevel : String
  threatWeight : ℚ
deriving DecidableEq

/-- The membership test `lat_min <= lat <= lat_max and lon_min <= lon <= lon_max`. -/
def inZone (z : Zone) (lat lon : ℚ) : Bool :=
  decide (z.latMin ≤ lat ∧ lat ≤ z.latMax ∧ z.lonMin ≤ lon ∧ lon ≤ z.lonMax)

/-- The `ZoneResult` built for a matched zone. -/
def zoneResultOf (z : Zone) : ZoneResult :=
  ⟨z.name, z.threatLevel, threatWeightOf z.threatLevel⟩

/-- The `ZoneResult` returned when no zone contains the point. -/
def noneThreat : ZoneResult := ⟨"none", "none", 0⟩

/-- `IndiaImpactFilter._evaluate_location_threat`: first zone (in table
order) whose bounding box contains the point, else the `none` zone. -/
def evaluateLocationThreat (lat lon : ℚ) : ZoneResult :=
  match criticalZones.find? (fun z => inZone z lat lon) with
  | some z => zoneResultOf z
  | none => noneThreat

/-- Latitude of a coastal region's centre,
`(bounds['min_lat'] + bounds['max_lat']) / 2`. -/
def centerLat (b : CoastBounds) : ℚ := (b.minLat + b.maxLat) / 2

/-- Longitude of a coastal region's centre,
`(bounds['min_lon'] + bounds['max_lon']) / 2`. -/
def centerLon (b : CoastBounds) : ℚ := (b.minLon + b.maxLon) / 2

/-- `IndiaImpactFilter._calculate_distance_to_india`: minimum distance
to the centres of the configured coastal regions.  The source starts
from `float('inf')`; `ℚ` has no infinity, so an empty coastline table
yields `none` (and the caller's `distance > radius` comparison treats
`none` as exceeding every radius, exactly as `inf` does). -/
def calculateDistanceToIndia (dist : Dist) (coastline : List (String × CoastBounds))
    (lat lon : ℚ) : Option ℚ :=
  match coastline.map (fun rb => dist lat lon (centerLat rb.2) (centerLon rb.2)) with
  | [] => none
  | d :: ds => some (ds.foldl min d)

/-- The comparison `distance_to_coast > self.critical_radius_km`, with
`none` standing for `float('inf')`. -/
def distExceeds : Option ℚ → ℚ → Bool
  | none, _ => true
  | some d, r => decide (r < d)

/-- `IndiaImpactFilter._evaluate_propagation_direction`.  The source
also computes a bearing and then never uses it; the unused computation
is omitted. -/
def evaluatePropagationDirection (dist : Dist) (lat lon magnitude : ℚ) : ℚ :=
  if 8 ≤ magnitude then 1
  else if 7 ≤ magnitude then 0.8
  else if dist lat lon 20 77 < 1000 then 0.9
  else 0.5

/-- `IndiaImpactFilter._assess_depth_factor`. -/
def assessDepthFactor (depth magnitude : ℚ) : ℚ :=
  if 7.5 ≤ magnitude then
    if depth < 70 then 1 else if depth < 100 then 0.7 else 0.3
  else if 7 ≤ magnitude then
    if depth < 50 then 1 else if depth < 70 then 0.6 else 0.2
  else
    if depth < 40 then 0.8 else if depth < 60 then 0.4 else 0.1

/-- The magnitude-scaled impact radius table of
`_identify_affected_regions` (computed inside the loop in the source,
identically for every region). -/
def impactRadius (magnitude : ℚ) : ℚ :=
  if 8.5 ≤ magnitude then 4000
  else if 8 ≤ magnitude then 3000
  else if 7.5 ≤ magnitude then 2000
  else if 7 ≤ magnitude then 1500
  else 1000

/-- `IndiaImpactFilter._identify_affected_regions`. -/
def identifyAffectedRegions (dist : Dist) (coastline : List (String × CoastBounds))
    (lat lon magnitude propagationRisk : ℚ) : List String :=
  if propagationRisk < 0.3 then []
  else
    coastline.filterMap (fun rb =>
      if dist lat lon (centerLat rb.2) (centerLon rb.2) ≤ impactRadius magnitude
      then some rb.1 else none)

/-- `IndiaImpactFilter._normalize_distance`. -/
def normalizeDistance (distance : ℚ) : ℚ :=
  if distance ≤ 500 then 1
  else if distance ≤ 1000 then 0.8
  else if distance ≤ 2000 then 0.6
  else if distance ≤ 3000 then 0.4
  else 0.2

/-- `np.clip(x, lo, hi)` for `lo ≤ hi`. -/
def nclip (x lo hi : ℚ) : ℚ := min (max x lo) hi

/-- `IndiaImpactFilter._calculate_india_risk_score`: weighted fusion of
the five factors, clipped to `[0, 1]`. -/
def calculateIndiaRiskScore (modelRisk locationThreat distanceFactor
    propagationFactor depthFactor : ℚ) : ℚ :=
  nclip (modelRisk * 0.35 + locationThreat * 0.25 + distanceFactor * 0.20 +
    propagationFactor * 0.10 + depthFactor * 0.10) 0 1

/-- `IndiaImpactFilter._determine_risk_level`. -/
def determineRiskLevel (cfg : Config) (riskScore : ℚ) : String :=
  if cfg.highRisk ≤ riskScore then "HIGH"
  else if cfg.mediumRisk ≤ riskScore then "MEDIUM"
  else if cfg.lowRisk ≤ riskScore then "LOW"
  else "MINIMAL"

/-- Decimal display of a rational in a reason string.  The source
formats floats with `:.2f` / `:.0f`; the exact digit rendering is
presentational and never inspected by any claim, so a plain rounding
rendering is used. -/
def fmtQ (q : ℚ) : String := toString (round q)

/-- Display of the (possibly infinite) distance, `none` being `inf`. -/
def fmtDistOpt : Option ℚ → String
  | none => "inf"
  | some d => fmtQ d

/-- `IndiaImpactFilter._generate_reasoning`. -/
def generateReasoning (riskScore : ℚ) (locationThreat : ZoneResult)
    (distance : ℚ) (affectedRegions : List String) : String :=
  String.intercalate " | "
    (["India risk score: " ++ fmtQ riskScore,
      "Epicenter in " ++ locationThreat.zone ++ " zone (" ++
        locationThreat.threatLevel ++ " threat)",
      "Distance to Indian coast: " ++ fmtQ distance ++ " km"] ++
      (if affectedRegions.isEmpty then
        ["No Indian coastal regions directly threatened"]
      else
        ["Potentially affected regions: " ++ String.intercalate ", " affectedRegions]))

/-- The dictionary returned by `assess_india_risk`. -/
structure FilterResult where
  indiaAtRisk : Bool
  indiaRiskScore : ℚ
  riskLevel : String
  affectedRegions : List String
  distanceToCoastKm : Option ℚ
  locationThreat : String
  propagationFavorable : Bool
  depthFavorable : Bool
  modelConfidence : ℚ
  reasoning : String
deriving DecidableEq

/-- `IndiaImpactFilter._create_no_risk_response`. -/
def createNoRiskResponse (reason : String) (pred : ModelPrediction) : FilterResult where
  indiaAtRisk := false
  indiaRiskScore := 0
  riskLevel := "NONE"
  affectedRegions := []
  distanceToCoastKm := none
  locationThreat := "none"
  propagationFavorable := false
  depthFavorable := false
  modelConfidence := pred.confidence
  reasoning := reason

/-- `IndiaImpactFilter.assess_india_risk`: the full pipeline with its
three early no-risk exits.  On the full path `distanceToCoast` is
necessarily `some d` (a `none`, i.e. `inf`, always exceeds the radius),
so `Option.getD` is safe there; the `0` default is unreachable. -/
def assessIndiaRisk (dist : Dist) (cfg : Config) (eq : EarthquakeData)
    (pred : ModelPrediction) : FilterResult :=
  let modelRisk := pred.riskProbability
  if modelRisk < 0.25 then
    createNoRiskResponse "Model prediction below threshold" pred
  else
    let locationThreat := evaluateLocationThreat eq.latitude eq.longitude
    if locationThreat.threatLevel = "none" then
      createNoRiskResponse "Epicenter outside critical zones for India" pred
    else
      let distanceToCoast := calculateDistanceToIndia dist cfg.coastline eq.latitude eq.longitude
      if distExceeds distanceToCoast cfg.criticalRadiusKm then
        createNoRiskResponse
          ("Epicenter too distant (" ++ fmtDistOpt distanceToCoast ++ " km)") pred
      else
        let propagationRisk :=
          evaluatePropagationDirection dist eq.latitude eq.longitude eq.magnitude
        let depthFactor := assessDepthFactor eq.depth eq.magnitude
        let affectedRegions := identifyAffectedRegions dist cfg.coastline
          eq.latitude eq.longitude eq.magnitude propagationRisk
        let d := distanceToCoast.getD 0
        let indiaRiskScore := calculateIndiaRiskScore modelRisk
          locationThreat.threatWeight (normalizeDistance d) propagationRisk depthFactor
        { indiaAtRisk := decide (0.3 < indiaRiskScore)
          indiaRiskScore := indiaRiskScore
          riskLevel := determineRiskLevel cfg indiaRiskScore
          affectedRegions := affectedRegions
          distanceToCoastKm := some d
          locationThreat := locationThreat.threatLevel
          propagationFavorable := decide (0.5 < propagationRisk)
          depthFavorable := decide (0.5 < depthFactor)
          modelConfidence := pred.confidence
          reasoning := generateReasoning indiaRiskScore locationThreat d affectedRegions }

/-! ### `risk_assessor.py` -/

/-- An INCOIS advisory record; only its `level` string is read by
`_determine_alert_level` (via `advisory.get('level', '')`). -/
structure Advisory where
  level : String
deriving DecidableEq

/-- Python's substring test `needle in hay`. -/
def strContains (hay needle : String) : Bool :=
  decide (List.IsInfix needle.toList hay.toList)

/-- Python's `str.lower()`, lowering character by character (the
character-list form of `String.toLower`). -/
def lowerStr (s : String) : String := String.mk (s.data.map Char.toLower)

/-- The per-advisory keyword mapping inside the advisory loop of
`RiskAssessor._determine_alert_level` (`None` when the advisory's
lowered level matches no keyword, in which case the loop continues). -/
def advisoryLevelOf (a : Advisory) : Option String :=
  let lv := lowerStr a.level
  if strContains lv "major" || strContains lv "warning" then some "WARNING"
  else if strContains lv "advisory" then some "ADVISORY"
  else if strContains lv "watch" then some "WATCH"
  else none

/-- The `risk_level` fallback mapping of `_determine_alert_level`. -/
def riskToAlert (riskLevel : String) : String :=
  if riskLevel = "HIGH" then "WARNING"
  else if riskLevel = "MEDIUM" then "ADVISORY"
  else if riskLevel = "LOW" then "WATCH"
  else "INFORMATION"

/-- `RiskAssessor._determine_alert_level`.  The source guards the loop
with `if incois_advisories:`, which is redundant (an empty list has an
empty loop); `findSome?` is the loop with its early returns. -/
def determineAlertLevel (filt : FilterResult) (advisories : List Advisory) : String :=
  match advisories.findSome? advisoryLevelOf with
  | some lv => lv
  | none =>
    if !filt.indiaAtRisk then "NONE"
    else riskToAlert filt.riskLevel

/-- The hard-coded `region_coords` table of `_estimate_arrival_times`. -/
def regionCoords : List (String × ℚ × ℚ) :=
  [("west_coast", 15, 73), ("east_coast", 13, 80), ("andaman_nicobar", 11, 92.5)]

/-- `tsunami_speed = 700  # km/h`. -/
def tsunamiSpeed : ℚ := 700

/-- `arrival_time = eq_time + timedelta(hours=distance / tsunami_speed)`.
Times are rationals (hours); `timedelta` arithmetic is exact, and the
final `strftime('%Y-%m-%d %H:%M UTC')` minute-precision rendering is
presentational. -/
def travelArrival (eqTime distance : ℚ) : ℚ := eqTime + distance / tsunamiSpeed

/-- The membership test `region in region_coords` plus the lookup. -/
def lookupRegion (r : String) : Option (ℚ × ℚ) :=
  (regionCoords.find? (fun rc => rc.1 == r)).map Prod.snd

/-- `RiskAssessor._estimate_arrival_times`: arrival time per affected
region that appears in `region_coords` (others are silently skipped by
the `if region in region_coords` guard). -/
def estimateArrivalTimes (dist : Dist) (lat lon eqTime : ℚ)
    (affectedRegions : List String) : List (String × ℚ) :=
  match affectedRegions with
  | [] => []
  | _ =>
    affectedRegions.filterMap (fun r =>
      match lookupRegion r with
      | some c => some (r, travelArrival eqTime (dist lat lon c.1 c.2))
      | none => none)

/-! ### `inference_engine.py` monitoring scheduler

An interleaving model of `start_monitoring` / `stop_monitoring` /
`_monitoring_loop`.  The monitor thread alternates between reading the
`is_running` flag (`while self.is_running`), executing one check cycle
(whose assessment is appended to the risk assessor's `alert_history`),
and sleeping.  `stop_monitoring` clears the flag and then calls
`Thread.join(timeout=10)`; a join with a finite timeout may return
while the thread is still mid-cycle, which the model captures with an
unconditional timeout transition. -/

/-- Program counter of the `_monitoring_loop` thread. -/
inductive MonPc where
  | checkFlag
  | cycling
  | sleeping
  | exited
deriving DecidableEq

/-- Program counter of the caller executing `stop_monitoring`. -/
inductive StopPc where
  | idle
  | joining
  | returned
deriving DecidableEq

/-- Shared state: the `is_running` flag, the two thread positions, and
the length of `alert_history` (each completed cycle appends one
assessment). -/
structure EngineState where
  isRunning : Bool
  mon : MonPc
  stopper : StopPc
  history : ℕ
deriving DecidableEq

/-- Interleaving semantics of the scheduler. -/
inductive EngStep : EngineState → EngineState → Prop where
  | monCheckTrue (s : EngineState) : s.mon = .checkFlag → s.isRunning = true →
      EngStep s { s with mon := .cycling }
  | monCheckFalse (s : EngineState) : s.mon = .checkFlag → s.isRunning = false →
      EngStep s { s with mon := .exited }
  | monCycle (s : EngineState) : s.mon = .cycling →
      EngStep s { s with mon := .sleeping, history := s.history + 1 }
  | monWake (s : EngineState) : s.mon = .sleeping →
      EngStep s { s with mon := .checkFlag }
  | stopSetFlag (s : EngineState) : s.stopper = .idle →
      EngStep s { s with isRunning := false, stopper := .joining }
  | joinExit (s : EngineState) : s.stopper = .joining → s.mon = .exited →
      EngStep s { s with stopper := .returned }
  | joinTimeout (s : EngineState) : s.stopper = .joining →
      EngStep s { s with stopper := .returned }

/-- State right after `start_monitoring` returned: flag set, loop at its
`while` test, stopper not yet invoked, empty history. -/
def initEngineState : EngineState := ⟨true, .checkFlag, .idle, 0⟩

/-- Multi-step reachability. -/
def EngReach (s t : EngineState) : Prop := Relation.ReflTransGen EngStep s t

/-- The claimed scheduler property: once `stop_monitoring` has
returned, the history never grows again. -/
def NoAppendAfterStop : Prop :=
  ∀ s t : EngineState, EngReach initEngineState s → s.stopper = .returned →
    EngReach s t → t.history = s.history

/-! ## Helper lemmas -/

/-- Generic first-match characterisation of `List.find?`. -/
lemma find_split {α : Type} (p : α → Bool) (l : List α) :
    (l.find? p = none ∧ ∀ x ∈ l, p x = false) ∨
      ∃ pre a post, l = pre ++ a :: post ∧ (∀ x ∈ pre, p x = false) ∧
        p a = true ∧ l.find? p = some a := by
  induction l with
  | nil => exact Or.inl ⟨rfl, by simp⟩
  | cons b t ih =>
    by_cases hb : p b = true
    · exact Or.inr ⟨[], b, t, by simp, by simp, hb, by simp [List.find?, hb]⟩
    · rw [Bool.not_eq_true] at hb
      rcases ih with ⟨hn, hall⟩ | ⟨pre, a, post, hl, hpre, ha, hfind⟩
      · refine Or.inl ⟨?_, ?_⟩
        · simp [List.find?, hb, hn]
        · intro x hx
          rcases List.mem_cons.mp hx with rfl | hx
          · exact hb
          · exact hall x hx
      · refine Or.inr ⟨b :: pre, a, post, by simp [hl], ?_, ha, ?_⟩
        · intro x hx
          rcases List.mem_cons.mp hx with rfl | hx
          · exact hb
          · exact hpre x hx
        · simp [List.find?, hb, hfind]

/-- Generic first-match characterisation of `List.findSome?`. -/
lemma findSome_split {α β : Type} (f : α → Option β) (l : List α) :
    (l.findSome? f = none ∧ ∀ x ∈ l, f x = none) ∨
      ∃ pre a post b, l = pre ++ a :: post ∧ (∀ x ∈ pre, f x = none) ∧
        f a = some b ∧ l.findSome? f = some b := by
  induction l with
  | nil => exact Or.inl ⟨rfl, by simp⟩
  | cons c t ih =>
    cases hc : f c with
    | some b =>
      exact Or.inr ⟨[], c, t, b, by simp, by simp, hc, by simp [List.findSome?_cons, hc]⟩
    | none =>
      rcases ih with ⟨hn, hall⟩ | ⟨pre, a, post, b, hl, hpre, ha, hfind⟩
      · refine Or.inl ⟨by simp [List.findSome?_cons, hc, hn], ?_⟩
        intro x hx
        rcases List.mem_cons.mp hx with rfl | hx
        · exact hc
        · exact hall x hx
      · refine Or.inr ⟨c :: pre, a, post, b, by simp [hl], ?_, ha, ?_⟩
        · intro x hx
          rcases List.mem_cons.mp hx with rfl | hx
          · exact hc
          · exact hpre x hx
        · simp [List.findSome?_cons, hc, hfind]

/-- `findSome?` on a list whose prefix yields `none` returns the value
of the first productive element. -/
lemma findSome_append_first {α β : Type} (f : α → Option β) (pre post : List α)
    (a : α) (b : β) (hpre : ∀ x ∈ pre, f x = none) (ha : f a = some b) :
    (pre ++ a :: post).findSome? f = some b := by
  induction pre with
  | nil => simp [List.findSome?_cons, ha]
  | cons c t ih =>
    have hc : f c = none := hpre c (by simp)
    have ht : ∀ x ∈ t, f x = none := fun x hx => hpre x (by simp [hx])
    simp [List.findSome?_cons, hc, ih ht]

/-- Helper: membership in the fixed zone table. -/
lemma mem_criticalZones {z : Zone} (h : z ∈ criticalZones) :
    z = andamanZone ∨ z = makranZone ∨ z = sumatraZone ∨ z = arabianSeaZone := by
  simpa [criticalZones] using h

/-- The threat weight of a matched zone is never `0`
(each configured level maps to `1`, `0.8` or `0.5`). -/
lemma zoneResult_weight_ne_zero {z : Zone} (h : z ∈ criticalZones) :
    (zoneResultOf z).threatWeight ≠ 0 := by
  rcases mem_criticalZones h with rfl | rfl | rfl | rfl <;>
    simp [zoneResultOf, threatWeightOf, andamanZone, makranZone, sumatraZone,
      arabianSeaZone] <;> norm_num

/-- The threat level of a matched zone is never the string `none`. -/
lemma zoneResult_level_ne_none {z : Zone} (h : z ∈ criticalZones) :
    (zoneResultOf z).threatLevel ≠ "none" := by
  rcases mem_criticalZones h with rfl | rfl | rfl | rfl <;>
    simp [zoneResultOf, andamanZone, makranZone, sumatraZone, arabianSeaZone]

/-- The classified threat weight is zero exactly when the classified
threat level is the string `none`. -/
lemma evaluateLocationThreat_weight_zero_iff (lat lon : ℚ) :
    (evaluateLocationThreat lat lon).threatWeight = 0 ↔
      (evaluateLocationThreat lat lon).threatLevel = "none" := by
  unfold evaluateLocationThreat
  rcases find_split (fun z => inZone z lat lon) criticalZones with
    ⟨hn, _⟩ | ⟨pre, a, post, hl, _, _, hfind⟩
  · rw [hn]; simp [noneThreat]
  · rw [hfind]
    have ha : a ∈ criticalZones := by rw [hl]; simp
    simp [zoneResult_weight_ne_zero ha, zoneResult_level_ne_none ha]

/-- The clip to `[0,1]` is bounded below by `0`. -/
lemma nclip_nonneg (x : ℚ) : 0 ≤ nclip x 0 1 :=
  le_min (le_max_right x 0) zero_le_one

/-- The clip to `[0,1]` is bounded above by `1`. -/
lemma nclip_le_one (x : ℚ) : nclip x 0 1 ≤ 1 :=
  min_le_right _ _

/-- The clip to `[0,1]` is monotone. -/
lemma nclip_mono {x y : ℚ} (h : x ≤ y) : nclip x 0 1 ≤ nclip y 0 1 :=
  min_le_min (max_le_max h le_rfl) le_rfl

/-- Every score returned by `assess_india_risk` (on any path) is
non-negative. -/
lemma assess_score_nonneg (dist : Dist) (cfg : Config) (eq : EarthquakeData)
    (pred : ModelPrediction) : 0 ≤ (assessIndiaRisk dist cfg eq pred).indiaRiskScore := by
  simp only [assessIndiaRisk]
  split_ifs <;>
    simp [createNoRiskResponse, calculateIndiaRiskScore, nclip_nonneg]

/-- A string with a non-empty left part is non-empty. -/
lemma append_ne_empty_left (a b : String) (h : a ≠ "") : a ++ b ≠ "" := by
  intro hab
  apply h
  have hlen := congrArg String.length hab
  rw [String.length_append] at hlen
  have h0 : ("" : String).length = 0 := rfl
  rw [h0] at hlen
  have ha : a.length = 0 := by omega
  cases a with
  | mk d =>
    cases d with
    | nil => rfl
    | cons c cs => simp [String.length] at ha

/-! ## Concrete fixtures used by witnesses -/

/-- A concrete distance function (constant 100 km). -/
def havFix : Dist := fun _ _ _ _ => 100

/-- A concrete distance function (constant 3000 km). -/
def havFar : Dist := fun _ _ _ _ => 3000

/-- A concrete configuration: 2000 km critical radius, one coastal
region, thresholds 0.7 / 0.5 / 0.3. -/
def cfgFix : Config := ⟨2000, [("west_coast", ⟨10, 20, 70, 76⟩)], 0.7, 0.5, 0.3⟩

/-- A concrete earthquake in the Andaman subduction zone. -/
def eqFix : EarthquakeData := ⟨5, 95, 8, 10⟩

/-- A concrete model prediction above every threshold. -/
def predFix : ModelPrediction := ⟨0.8, 0.9⟩

/-! ## Claim theorems -/

/-- C7: for every (latitude, longitude) the geo-zone classifier returns
exactly one result — the first zone of the configured table whose
bounding rectangle contains the point (earlier zones all failing), or
the `none` zone with threat weight `0` when no rectangle contains it;
on the overlap of the Andaman and Sumatra rectangles (e.g. (3, 95)) the
earlier Andaman zone wins deterministically. -/
theorem geoZone_first_match_c7 (lat lon : ℚ) :
    (((∀ z ∈ criticalZones, inZone z lat lon = false) ∧
        evaluateLocationThreat lat lon = noneThreat) ∨
      (∃ pre z post, criticalZones = pre ++ z :: post ∧
        (∀ z' ∈ pre, inZone z' lat lon = false) ∧ inZone z lat lon = true ∧
        evaluateLocationThreat lat lon = zoneResultOf z)) ∧
    noneThreat.threatWeight = 0 ∧
    inZone andamanZone 3 95 = true ∧ inZone sumatraZone 3 95 = true ∧
    evaluateLocationThreat 3 95 = zoneResultOf andamanZone := by
  refine ⟨?_, rfl, by decide, by decide, by decide⟩
  rcases find_split (fun z => inZone z lat lon) criticalZones with
    ⟨hn, hall⟩ | ⟨pre, a, post, hl, hpre, ha, hfind⟩
  · exact Or.inl ⟨hall, by unfold evaluateLocationThreat; rw [hn]⟩
  · exact Or.inr ⟨pre, a, post, hl, hpre, ha, by unfold evaluateLocationThreat; rw [hfind]⟩

/-- Witness for C7 at the concrete overlap point (3, 95). -/
theorem geoZone_first_match_c7_witness :
    evaluateLocationThreat 3 95 = zoneResultOf andamanZone :=
  (geoZone_first_match_c7 3 95).2.2.2.2

/-- C1: the impact score is the weighted sum
`0.35*model_risk + 0.25*zone_weight + 0.20*distance_factor +
0.10*propagation_factor + 0.10*depth_factor` clipped to `[0,1]`; it
always lies in `[0,1]` for arbitrary factor inputs; and on every run of
`assess_india_risk` that takes no early no-risk exit the returned score
is exactly this fusion of the derived factors. -/
theorem impact_score_formula_c1 :
    (∀ m z d p dp : ℚ,
      calculateIndiaRiskScore m z d p dp =
        nclip (0.35 * m + 0.25 * z + 0.20 * d + 0.10 * p + 0.10 * dp) 0 1 ∧
      0 ≤ calculateIndiaRiskScore m z d p dp ∧
      calculateIndiaRiskScore m z d p dp ≤ 1) ∧
    (∀ (dist : Dist) (cfg : Config) (eq : EarthquakeData) (pred : ModelPrediction),
      ¬ pred.riskProbability < 0.25 →
      (evaluateLocationThreat eq.latitude eq.longitude).threatLevel ≠ "none" →
      distExceeds (calculateDistanceToIndia dist cfg.coastline eq.latitude eq.longitude)
          cfg.criticalRadiusKm = false →
      (assessIndiaRisk dist cfg eq pred).indiaRiskScore =
        calculateIndiaRiskScore pred.riskProbability
          (evaluateLocationThreat eq.latitude eq.longitude).threatWeight
          (normalizeDistance
            ((calculateDistanceToIndia dist cfg.coastline eq.latitude eq.longitude).getD 0))
          (evaluatePropagationDirection dist eq.latitude eq.longitude eq.magnitude)
          (assessDepthFactor eq.depth eq.magnitude)) := by
  constructor
  · intro m z d p dp
    refine ⟨?_, nclip_nonneg _, nclip_le_one _⟩
    unfold calculateIndiaRiskScore
    congr 1
    ring
  · intro dist cfg eq pred h1 h2 h3
    simp only [assessIndiaRisk]
    rw [if_neg h1, if_neg h2, if_neg (by simp [h3])]

/-- Witness for C1 on a concrete full-path run. -/
theorem impact_score_formula_c1_witness :
    (assessIndiaRisk havFix cfgFix eqFix predFix).indiaRiskScore =
      calculateIndiaRiskScore predFix.riskProbability
        (evaluateLocationThreat eqFix.latitude eqFix.longitude).threatWeight
        (normalizeDistance
          ((calculateDistanceToIndia havFix cfgFix.coastline eqFix.latitude eqFix.longitude).getD 0))
        (evaluatePropagationDirection havFix eqFix.latitude eqFix.longitude eqFix.magnitude)
        (assessDepthFactor eqFix.depth eqFix.magnitude) :=
  impact_score_formula_c1.2 havFix cfgFix eqFix predFix (by norm_num [predFix])
    (by decide) (by decide)

/-- C2: whenever any of the three early-exit conditions holds
(`model_risk < 0.25`, zero zone weight, or distance to coast beyond
the configured critical radius), `assess_india_risk` returns score `0`,
`at_risk = false` and risk level `NONE`, with a non-empty recorded
reason string, regardless of all other inputs. -/
theorem no_risk_exits_c2 (dist : Dist) (cfg : Config) (eq : EarthquakeData)
    (pred : ModelPrediction)
    (h : pred.riskProbability < 0.25 ∨
      (evaluateLocationThreat eq.latitude eq.longitude).threatWeight = 0 ∨
      distExceeds (calculateDistanceToIndia dist cfg.coastline eq.latitude eq.longitude)
        cfg.criticalRadiusKm = true) :
    (assessIndiaRisk dist cfg eq pred).indiaRiskScore = 0 ∧
    (assessIndiaRisk dist cfg eq pred).indiaAtRisk = false ∧
    (assessIndiaRisk dist cfg eq pred).riskLevel = "NONE" ∧
    (assessIndiaRisk dist cfg eq pred).reasoning ≠ "" ∧
    ∃ reason, assessIndiaRisk dist cfg eq pred = createNoRiskResponse reason pred := by
  simp only [assessIndiaRisk]
  by_cases h1 : pred.riskProbability < 0.25
  · rw [if_pos h1]
    refine ⟨rfl, rfl, rfl, ?_, ⟨_, rfl⟩⟩
    simp only [createNoRiskResponse]
    decide
  · rw [if_neg h1]
    by_cases h2 : (evaluateLocationThreat eq.latitude eq.longitude).threatLevel = "none"
    · rw [if_pos h2]
      refine ⟨rfl, rfl, rfl, ?_, ⟨_, rfl⟩⟩
      simp only [createNoRiskResponse]
      decide
    · rw [if_neg h2]
      have h3 : distExceeds (calculateDistanceToIndia dist cfg.coastline eq.latitude eq.longitude)
          cfg.criticalRadiusKm = true := by
        rcases h with h | h | h
        · exact absurd h h1
        · exact absurd ((evaluateLocationThreat_weight_zero_iff _ _).mp h) h2
        · exact h
      rw [if_pos h3]
      refine ⟨rfl, rfl, rfl, ?_, ⟨_, rfl⟩⟩
      simp only [createNoRiskResponse]
      exact append_ne_empty_left _ _ (append_ne_empty_left _ _ (by decide))

/-- Witness for C2: a prediction below the model threshold forces the
no-risk response. -/
theorem no_risk_exits_c2_witness :
    (assessIndiaRisk havFix cfgFix eqFix ⟨0.1, 0.9⟩).indiaRiskScore = 0 ∧
    (assessIndiaRisk havFix cfgFix eqFix ⟨0.1, 0.9⟩).indiaAtRisk = false ∧
    (assessIndiaRisk havFix cfgFix eqFix ⟨0.1, 0.9⟩).riskLevel = "NONE" ∧
    (assessIndiaRisk havFix cfgFix eqFix ⟨0.1, 0.9⟩).reasoning ≠ "" ∧
    ∃ reason, assessIndiaRisk havFix cfgFix eqFix ⟨0.1, 0.9⟩ =
      createNoRiskResponse reason ⟨0.1, 0.9⟩ :=
  no_risk_exits_c2 havFix cfgFix eqFix ⟨0.1, 0.9⟩ (Or.inl (by norm_num))

/-- C3: on every path (full pipeline and every early no-risk exit) the
returned `india_at_risk` flag holds exactly when the returned score
strictly exceeds `0.3`. -/
theorem at_risk_iff_c3 (dist : Dist) (cfg : Config) (eq : EarthquakeData)
    (pred : ModelPrediction) :
    (assessIndiaRisk dist cfg eq pred).indiaAtRisk = true ↔
      0.3 < (assessIndiaRisk dist cfg eq pred).indiaRiskScore := by
  simp only [assessIndiaRisk]
  split_ifs <;> simp [createNoRiskResponse] <;> norm_num

/-- C8: for a fixed location, magnitude, depth and confidence, the
returned risk score is monotonically non-decreasing in the model's risk
probability, including across the `model_risk < 0.25` early-exit
boundary (an early exit yields `0`, never more than any full-path
score). -/
theorem monotone_model_risk_c8 (dist : Dist) (cfg : Config) (eq : EarthquakeData)
    (p1 p2 : ModelPrediction) (h : p1.riskProbability ≤ p2.riskProbability) :
    (assessIndiaRisk dist cfg eq p1).indiaRiskScore ≤
      (assessIndiaRisk dist cfg eq p2).indiaRiskScore := by
  by_cases h1 : p1.riskProbability < 0.25
  · have hz : (assessIndiaRisk dist cfg eq p1).indiaRiskScore = 0 := by
      simp only [assessIndiaRisk]
      rw [if_pos h1]
      rfl
    rw [hz]
    exact assess_score_nonneg dist cfg eq p2
  · have h2 : ¬ p2.riskProbability < 0.25 := fun hc => h1 (lt_of_le_of_lt h hc)
    simp only [assessIndiaRisk]
    rw [if_neg h1, if_neg h2]
    split_ifs
    · simp [createNoRiskResponse]
    · simp [createNoRiskResponse]
    · unfold calculateIndiaRiskScore
      apply nclip_mono
      have hm : p1.riskProbability * 0.35 ≤ p2.riskProbability * 0.35 :=
        mul_le_mul_of_nonneg_right h (by norm_num)
      linarith

/-- Witness for C8 at concrete predictions 0.3 and 0.8. -/
theorem monotone_model_risk_c8_witness :
    (assessIndiaRisk havFix cfgFix eqFix ⟨0.3, 0.9⟩).indiaRiskScore ≤
      (assessIndiaRisk havFix cfgFix eqFix predFix).indiaRiskScore :=
  monotone_model_risk_c8 havFix cfgFix eqFix ⟨0.3, 0.9⟩ predFix (by norm_num [predFix])

/-- Region-membership characterisation of
`_identify_affected_regions`. -/
lemma mem_identifyAffectedRegions (dist : Dist) (coastline : List (String × CoastBounds))
    (lat lon magnitude prop : ℚ) (name : String) :
    name ∈ identifyAffectedRegions dist coastline lat lon magnitude prop ↔
      0.3 ≤ prop ∧ ∃ b, (name, b) ∈ coastline ∧
        dist lat lon (centerLat b) (centerLon b) ≤ impactRadius magnitude := by
  unfold identifyAffectedRegions
  by_cases hp : prop < 0.3
  · rw [if_pos hp]
    simp [not_le.mpr hp]
  · rw [if_neg hp]
    rw [List.mem_filterMap]
    constructor
    · rintro ⟨⟨n, b⟩, hmem, hf⟩
      by_cases hd : dist lat lon (centerLat b) (centerLon b) ≤ impactRadius magnitude
      · rw [if_pos hd] at hf
        obtain rfl : n = name := by simpa using hf
        exact ⟨not_lt.mp hp, b, hmem, hd⟩
      · rw [if_neg hd] at hf
        exact absurd hf (by simp)
    · rintro ⟨-, b, hmem, hd⟩
      exact ⟨(name, b), hmem, by rw [if_pos hd]⟩

/-- C4: a configured coastal region is selected iff its centre lies
within the magnitude-scaled impact radius and the propagation factor is
at least `0.3`; a propagation factor below `0.3` yields no regions
regardless of distance; the selection is always drawn from the
configured region set; and the radius bands are
`≥8.5→4000, ≥8.0→3000, ≥7.5→2000, ≥7.0→1500, else→1000`. -/
theorem affected_regions_c4 (dist : Dist) (coastline : List (String × CoastBounds))
    (lat lon magnitude prop : ℚ) :
    (prop < 0.3 → identifyAffectedRegions dist coastline lat lon magnitude prop = []) ∧
    (∀ name, name ∈ identifyAffectedRegions dist coastline lat lon magnitude prop ↔
      0.3 ≤ prop ∧ ∃ b, (name, b) ∈ coastline ∧
        dist lat lon (centerLat b) (centerLon b) ≤ impactRadius magnitude) ∧
    (∀ name ∈ identifyAffectedRegions dist coastline lat lon magnitude prop,
      name ∈ coastline.map Prod.fst) ∧
    (8.5 ≤ magnitude → impactRadius magnitude = 4000) ∧
    (8 ≤ magnitude → magnitude < 8.5 → impactRadius magnitude = 3000) ∧
    (7.5 ≤ magnitude → magnitude < 8 → impactRadius magnitude = 2000) ∧
    (7 ≤ magnitude → magnitude < 7.5 → impactRadius magnitude = 1500) ∧
    (magnitude < 7 → impactRadius magnitude = 1000) := by
  refine ⟨?_, mem_identifyAffectedRegions dist coastline lat lon magnitude prop, ?_, ?_, ?_, ?_, ?_, ?_⟩
  · intro hp
    unfold identifyAffectedRegions
    rw [if_pos hp]
  · intro name hmem
    rcases (mem_identifyAffectedRegions dist coastline lat lon magnitude prop name).mp hmem with
      ⟨-, b, hb, -⟩
    exact List.mem_map.mpr ⟨(name, b), hb, rfl⟩
  · intro h1
    unfold impactRadius
    rw [if_pos h1]
  · intro h1 h2
    unfold impactRadius
    rw [if_neg (not_le.mpr h2), if_pos h1]
  · intro h1 h2
    unfold impactRadius
    rw [if_neg (by linarith), if_neg (not_le.mpr h2), if_pos h1]
  · intro h1 h2
    unfold impactRadius
    rw [if_neg (by linarith), if_neg (by linarith), if_neg (not_le.mpr h2), if_pos h1]
  · intro h1
    unfold impactRadius
    rw [if_neg (by linarith), if_neg (by linarith), if_neg (by linarith),
      if_neg (not_le.mpr h1)]

/-- Witness for C4: a sub-threshold propagation factor empties the
selection at a concrete input. -/
theorem affected_regions_c4_witness :
    identifyAffectedRegions havFix cfgFix.coastline 5 95 8 0.1 = [] :=
  (affected_regions_c4 havFix cfgFix.coastline 5 95 8 0.1).1 (by norm_num)

/-- C10: the propagation evaluator only returns values in
`{0.5, 0.8, 0.9, 1.0}` and hence is always at least `0.5`; therefore
the `propagation_risk < 0.3` empty-return branch of
`_identify_affected_regions` is unreachable from `assess_india_risk`,
and on every full run the region selection is the pure distance
filter. -/
theorem propagation_gate_c10 (dist : Dist) (eq : EarthquakeData) :
    (evaluatePropagationDirection dist eq.latitude eq.longitude eq.magnitude = 0.5 ∨
      evaluatePropagationDirection dist eq.latitude eq.longitude eq.magnitude = 0.8 ∨
      evaluatePropagationDirection dist eq.latitude eq.longitude eq.magnitude = 0.9 ∨
      evaluatePropagationDirection dist eq.latitude eq.longitude eq.magnitude = 1) ∧
    0.5 ≤ evaluatePropagationDirection dist eq.latitude eq.longitude eq.magnitude ∧
    ¬ evaluatePropagationDirection dist eq.latitude eq.longitude eq.magnitude < 0.3 ∧
    (∀ coastline : List (String × CoastBounds),
      identifyAffectedRegions dist coastline eq.latitude eq.longitude eq.magnitude
          (evaluatePropagationDirection dist eq.latitude eq.longitude eq.magnitude) =
        coastline.filterMap (fun rb =>
          if dist eq.latitude eq.longitude (centerLat rb.2) (centerLon rb.2) ≤
              impactRadius eq.magnitude then some rb.1 else none)) ∧
    (∀ (cfg : Config) (pred : ModelPrediction),
      ¬ pred.riskProbability < 0.25 →
      (evaluateLocationThreat eq.latitude eq.longitude).threatLevel ≠ "none" →
      distExceeds (calculateDistanceToIndia dist cfg.coastline eq.latitude eq.longitude)
          cfg.criticalRadiusKm = false →
      (assessIndiaRisk dist cfg eq pred).affectedRegions =
        cfg.coastline.filterMap (fun rb =>
          if dist eq.latitude eq.longitude (centerLat rb.2) (centerLon rb.2) ≤
              impactRadius eq.magnitude then some rb.1 else none)) := by
  have hge : 0.5 ≤ evaluatePropagationDirection dist eq.latitude eq.longitude eq.magnitude := by
    unfold evaluatePropagationDirection
    split_ifs <;> norm_num
  have hmem : evaluatePropagationDirection dist eq.latitude eq.longitude eq.magnitude = 0.5 ∨
      evaluatePropagationDirection dist eq.latitude eq.longitude eq.magnitude = 0.8 ∨
      evaluatePropagationDirection dist eq.latitude eq.longitude eq.magnitude = 0.9 ∨
      evaluatePropagationDirection dist eq.latitude eq.longitude eq.magnitude = 1 := by
    unfold evaluatePropagationDirection
    split_ifs <;> simp
  have hgate : ∀ coastline : List (String × CoastBounds),
      identifyAffectedRegions dist coastline eq.latitude eq.longitude eq.magnitude
          (evaluatePropagationDirection dist eq.latitude eq.longitude eq.magnitude) =
        coastline.filterMap (fun rb =>
          if dist eq.latitude eq.longitude (centerLat rb.2) (centerLon rb.2) ≤
              impactRadius eq.magnitude then some rb.1 else none) := by
    intro coastline
    unfold identifyAffectedRegions
    rw [if_neg (by linarith)]
  refine ⟨hmem, hge, by linarith, hgate, ?_⟩
  intro cfg pred h1 h2 h3
  have : (assessIndiaRisk dist cfg eq pred).affectedRegions =
      identifyAffectedRegions dist cfg.coastline eq.latitude eq.longitude eq.magnitude
        (evaluatePropagationDirection dist eq.latitude eq.longitude eq.magnitude) := by
    simp only [assessIndiaRisk]
    rw [if_neg h1, if_neg h2, if_neg (by simp [h3])]
  rw [this, hgate]

/-- Witness for C10 on a concrete full-path run. -/
theorem propagation_gate_c10_witness :
    (assessIndiaRisk havFix cfgFix eqFix predFix).affectedRegions =
      cfgFix.coastline.filterMap (fun rb =>
        if havFix eqFix.latitude eqFix.longitude (centerLat rb.2) (centerLon rb.2) ≤
            impactRadius eqFix.magnitude then some rb.1 else none) :=
  (propagation_gate_c10 havFix eqFix).2.2.2.2 cfgFix predFix (by norm_num [predFix])
    (by decide) (by decide)

/-- C5: the alert-level resolver gives priority to official advisories
— the first advisory whose lowered level contains `major` or `warning`
maps to `WARNING`, then `advisory` to `ADVISORY`, then `watch` to
`WATCH`, first match winning; with no matching advisory, a not-at-risk
result maps to `NONE`, and otherwise the risk level maps
`HIGH→WARNING`, `MEDIUM→ADVISORY`, `LOW→WATCH`, anything else
(including `MINIMAL`) to `INFORMATION`. -/
theorem alert_level_c5 (filt : FilterResult) (advs : List Advisory) :
    ((∀ a ∈ advs, advisoryLevelOf a = none) →
      determineAlertLevel filt advs =
        if filt.indiaAtRisk then riskToAlert filt.riskLevel else "NONE") ∧
    (∀ pre a post lv, advs = pre ++ a :: post →
      (∀ x ∈ pre, advisoryLevelOf x = none) → advisoryLevelOf a = some lv →
      determineAlertLevel filt advs = lv) ∧
    (∀ a : Advisory,
      ((strContains (lowerStr a.level) "major" || strContains (lowerStr a.level) "warning") = true →
        advisoryLevelOf a = some "WARNING") ∧
      (strContains (lowerStr a.level) "major" = false →
        strContains (lowerStr a.level) "warning" = false →
        strContains (lowerStr a.level) "advisory" = true →
        advisoryLevelOf a = some "ADVISORY") ∧
      (strContains (lowerStr a.level) "major" = false →
        strContains (lowerStr a.level) "warning" = false →
        strContains (lowerStr a.level) "advisory" = false →
        strContains (lowerStr a.level) "watch" = true →
        advisoryLevelOf a = some "WATCH") ∧
      (strContains (lowerStr a.level) "major" = false →
        strContains (lowerStr a.level) "warning" = false →
        strContains (lowerStr a.level) "advisory" = false →
        strContains (lowerStr a.level) "watch" = false →
        advisoryLevelOf a = none)) ∧
    riskToAlert "HIGH" = "WARNING" ∧ riskToAlert "MEDIUM" = "ADVISORY" ∧
    riskToAlert "LOW" = "WATCH" ∧
    (∀ s, s ≠ "HIGH" → s ≠ "MEDIUM" → s ≠ "LOW" → riskToAlert s = "INFORMATION") := by
  refine ⟨?_, ?_, ?_, rfl, rfl, rfl, ?_⟩
  · intro hall
    unfold determineAlertLevel
    rcases findSome_split advisoryLevelOf advs with ⟨hn, -⟩ | ⟨pre, a, post, b, hl, -, ha, -⟩
    · rw [hn]
      cases hA : filt.indiaAtRisk <;> simp [hA]
    · have : a ∈ advs := by rw [hl]; simp
      rw [hall a this] at ha
      exact absurd ha (by simp)
  · intro pre a post lv hl hpre ha
    unfold determineAlertLevel
    rw [hl, findSome_append_first advisoryLevelOf pre post a lv hpre ha]
  · intro a
    refine ⟨?_, ?_, ?_, ?_⟩
    · intro hk
      unfold advisoryLevelOf
      rw [if_pos hk]
    · intro hk1 hk2 hk3
      unfold advisoryLevelOf
      rw [if_neg (by simp [hk1, hk2]), if_pos hk3]
    · intro hk1 hk2 hk3 hk4
      unfold advisoryLevelOf
      rw [if_neg (by simp [hk1, hk2]), if_neg (by simp [hk3]), if_pos hk4]
    · intro hk1 hk2 hk3 hk4
      unfold advisoryLevelOf
      rw [if_neg (by simp [hk1, hk2]), if_neg (by simp [hk3]), if_neg (by simp [hk4])]
  · intro s h1 h2 h3
    unfold riskToAlert
    rw [if_neg h1, if_neg h2, if_neg h3]

/-- Witness for C5: a first matching advisory wins at a concrete
input. -/
theorem alert_level_c5_witness :
    determineAlertLevel (createNoRiskResponse "r" ⟨0, 0⟩)
      [⟨"statement"⟩, ⟨"Tsunami Watch"⟩, ⟨"Major Warning"⟩] = "WATCH" :=
  (alert_level_c5 (createNoRiskResponse "r" ⟨0, 0⟩)
      [⟨"statement"⟩, ⟨"Tsunami Watch"⟩, ⟨"Major Warning"⟩]).2.1
    [⟨"statement"⟩] ⟨"Tsunami Watch"⟩ [⟨"Major Warning"⟩] "WATCH" rfl
    (by intro x hx; fin_cases hx; decide) (by decide)

/-- C6: every reported arrival time equals the event time plus the
distance from the epicenter to the region's centre divided by the
constant 700 km/h wave speed; a zero distance gives arrival equal to
the event time; the arrival formula is monotone in distance; and (for a
non-negative distance function, as the haversine is) every reported
arrival time is at least the event timestamp. -/
theorem arrival_times_c6 (dist : Dist) (lat lon eqTime : ℚ) (affected : List String)
    (hnn : ∀ la lo : ℚ, 0 ≤ dist lat lon la lo) :
    (∀ r t, (r, t) ∈ estimateArrivalTimes dist lat lon eqTime affected →
      ∃ la lo : ℚ, lookupRegion r = some (la, lo) ∧
        t = eqTime + dist lat lon la lo / tsunamiSpeed ∧
        eqTime ≤ t ∧ (dist lat lon la lo = 0 → t = eqTime)) ∧
    (∀ d1 d2 : ℚ, d1 ≤ d2 → travelArrival eqTime d1 ≤ travelArrival eqTime d2) ∧
    tsunamiSpeed = 700 := by
  refine ⟨?_, ?_, rfl⟩
  · intro r t hmem
    have hmem' : (r, t) ∈ affected.filterMap (fun reg =>
        match lookupRegion reg with
        | some c => some (reg, travelArrival eqTime (dist lat lon c.1 c.2))
        | none => none) := by
      cases affected with
      | nil => simp [estimateArrivalTimes] at hmem
      | cons a as => exact hmem
    rcases List.mem_filterMap.mp hmem' with ⟨reg, -, hf⟩
    cases hlk : lookupRegion reg with
    | none => rw [hlk] at hf; exact absurd hf (by simp)
    | some c =>
      rw [hlk] at hf
      have hr : reg = r ∧ travelArrival eqTime (dist lat lon c.1 c.2) = t := by
        constructor <;> [exact congrArg Prod.fst (Option.some_injective _ hf);
          exact congrArg Prod.snd (Option.some_injective _ hf)]
      obtain ⟨rfl, ht⟩ := hr
      refine ⟨c.1, c.2, by rw [hlk], ?_, ?_, ?_⟩
      · rw [← ht]; rfl
      · rw [← ht]
        unfold travelArrival
        have : 0 ≤ dist lat lon c.1 c.2 / tsunamiSpeed :=
          div_nonneg (hnn c.1 c.2) (by norm_num [tsunamiSpeed])
        linarith
      · intro hd0
        rw [← ht]
        unfold travelArrival
        rw [hd0]
        norm_num
  · intro d1 d2 h
    unfold travelArrival
    have : d1 / tsunamiSpeed ≤ d2 / tsunamiSpeed :=
      (div_le_div_iff_of_pos_right (by norm_num [tsunamiSpeed])).mpr h
    linarith

/-- Witness for C6 on a concrete affected-region list and constant
100 km distance function. -/
theorem arrival_times_c6_witness :
    ("west_coast", (10 : ℚ) + havFix 5 95 15 73 / tsunamiSpeed) ∈
      estimateArrivalTimes havFix 5 95 10 ["west_coast"] ∧
    (10 : ℚ) ≤ 10 + havFix 5 95 15 73 / tsunamiSpeed := by
  have hmem : ("west_coast", (10 : ℚ) + havFix 5 95 15 73 / tsunamiSpeed) ∈
      estimateArrivalTimes havFix 5 95 10 ["west_coast"] := by
    simp [estimateArrivalTimes, lookupRegion, regionCoords, travelArrival, havFix]
  rcases (arrival_times_c6 havFix 5 95 10 ["west_coast"]
      (fun la lo => by norm_num [havFix])).1 _ _ hmem with ⟨la, lo, -, -, hle, -⟩
  exact ⟨hmem, hle⟩

/-- Once the flag is cleared, a step keeps it cleared and never
increases `history` by more than the one in-flight cycle (measured by
the `cycling` potential). -/
lemma engStep_flag_false {a b : EngineState} (hflag : a.isRunning = false)
    (h : EngStep a b) :
    b.isRunning = false ∧
      b.history + (if b.mon = MonPc.cycling then 1 else 0) ≤
        a.history + (if a.mon = MonPc.cycling then 1 else 0) := by
  cases h <;> simp_all

/-- Multi-step version of `engStep_flag_false`. -/
lemma engReach_flag_false {a b : EngineState} (hflag : a.isRunning = false)
    (h : EngReach a b) :
    b.isRunning = false ∧
      b.history + (if b.mon = MonPc.cycling then 1 else 0) ≤
        a.history + (if a.mon = MonPc.cycling then 1 else 0) := by
  induction h with
  | refl => exact ⟨hflag, le_rfl⟩
  | tail hab hbc ih =>
    rcases ih with ⟨hf, hle⟩
    rcases engStep_flag_false hf hbc with ⟨hf', hle'⟩
    exact ⟨hf', le_trans hle' hle⟩

/-- From the initial state, any state whose stopper has moved past
`idle` has the running flag cleared (the flag is cleared before the
join). -/
lemma stopper_moved_flag_false {s : EngineState}
    (h : EngReach initEngineState s) : s.stopper ≠ StopPc.idle → s.isRunning = false := by
  induction h with
  | refl => intro hne; exact absurd rfl hne
  | @tail b c hab hbc ih =>
    intro hne
    cases hbc with
    | monCheckTrue hmon hrun =>
      have hflag := ih (by simpa using hne)
      simp_all
    | monCheckFalse hmon hrun => simpa using hrun
    | monCycle hmon => exact ih (by simpa using hne)
    | monWake hmon => exact ih (by simpa using hne)
    | stopSetFlag hstop => rfl
    | joinExit hstop hmon => simpa using ih (by simp [hstop])
    | joinTimeout hstop => simpa using ih (by simp [hstop])

/-- Helper trace: a reachable state where `stop_monitoring` has
returned (by join timeout) while the monitor thread is still mid-cycle,
and the pending append step. -/
lemma engReach_trace :
    EngReach initEngineState ⟨false, MonPc.cycling, StopPc.returned, 0⟩ ∧
      EngStep (⟨false, MonPc.cycling, StopPc.returned, 0⟩ : EngineState)
        ⟨false, MonPc.sleeping, StopPc.returned, 1⟩ := by
  have h1 : EngStep initEngineState (⟨true, MonPc.cycling, StopPc.idle, 0⟩ : EngineState) :=
    EngStep.monCheckTrue _ rfl rfl
  have h2 : EngStep (⟨true, MonPc.cycling, StopPc.idle, 0⟩ : EngineState)
      ⟨false, MonPc.cycling, StopPc.joining, 0⟩ :=
    EngStep.stopSetFlag _ rfl
  have h3 : EngStep (⟨false, MonPc.cycling, StopPc.joining, 0⟩ : EngineState)
      ⟨false, MonPc.cycling, StopPc.returned, 0⟩ :=
    EngStep.joinTimeout _ rfl
  have h4 : EngStep (⟨false, MonPc.cycling, StopPc.returned, 0⟩ : EngineState)
      ⟨false, MonPc.sleeping, StopPc.returned, 1⟩ :=
    EngStep.monCycle _ rfl
  exact ⟨Relation.ReflTransGen.head h1
    (Relation.ReflTransGen.head h2 (Relation.ReflTransGen.single h3)), h4⟩

/-- C9 counterexample: the claimed property — no assessment is ever
appended after `stop_monitoring` returns — fails: `Thread.join` with
its 10-second timeout can return while the loop is still mid-cycle, and
that cycle then appends its assessment. -/
theorem no_append_after_stop_counterexample_c9 : ¬ NoAppendAfterStop := by
  intro h
  rcases engReach_trace with ⟨hreach, hstep⟩
  have := h _ _ hreach rfl (Relation.ReflTransGen.single hstep)
  exact absurd this (by decide)

/-- C9 (amended): after `stop_monitoring` returns, at most one further
assessment — the one from the cycle already in flight when the stop
flag was cleared — can still be appended; the loop then observes the
cleared flag and exits, so the history grows by at most one. -/
theorem stop_monitoring_bounded_append_c9 (s t : EngineState)
    (hs : EngReach initEngineState s) (hret : s.stopper = StopPc.returned)
    (hst : EngReach s t) : t.history ≤ s.history + 1 := by
  have hflag : s.isRunning = false :=
    stopper_moved_flag_false hs (by simp [hret])
  rcases engReach_flag_false hflag hst with ⟨-, hle⟩
  revert hle
  split_ifs <;> omega

/-- Witness for the amended C9 on the concrete timeout trace. -/
theorem stop_monitoring_bounded_append_c9_witness :
    (⟨false, MonPc.sleeping, StopPc.returned, 1⟩ : EngineState).history ≤
      (⟨false, MonPc.cycling, StopPc.returned, 0⟩ : EngineState).history + 1 :=
  stop_monitoring_bounded_append_c9 _ _ engReach_trace.1 rfl
    (Relation.ReflTransGen.single engReach_trace.2)

end DisasterPrediction
